import Mathlib

/-!
Verification of the rtl-sdr-rs driver against its natural-language
specification.

Shallow embedding conventions:
 - Rust unsigned integers are modelled as `Nat`; all arithmetic in the
   modelled code paths is overflow-free at the stated widths unless a
   comment says otherwise, and truncating casts are written explicitly
   (`% 256`, `% 65536`, ...).
 - Rust signed integers are modelled as `Int`.  Rust's arithmetic right
   shift `x >> k` on a signed value equals flooring division by `2^k`,
   which for a positive divisor coincides with Lean's `Int` division
   `/` (Euclidean); `x & m` for `m = 2^k - 1` on a two's-complement value
   equals the nonnegative remainder `x % 2^k`, Lean's `Int` `%`.
 - Fallible operations return `Option`/`Except`; a Rust panic is `none`.
 - Device interaction is modelled as a trace (a `List` of events); the
   libusb transport is assumed healthy except where a claim is about
   error behaviour, in which case the outcome of the underlying transfer
   is an explicit parameter.
-/

namespace RtlSdrRs

/-- `DEF_RTL_XTAL_FREQ` from `src/rtlsdr.rs`. -/
def DEF_RTL_XTAL_FREQ : ℕ := 28800000

/-! ## Sample-rate computation (`RtlSdr::set_sample_rate`, `get_sample_rate`)

`set_sample_rate` first rejects unsupported rates, then computes

  rsamp_ratio      = (xtal * 2^22 / rate) & 0x0ffffffc          (u128)
  real_resamp_ratio = rsamp_ratio | ((rsamp_ratio & 0x08000000) << 1)
  real_rate        = (xtal * 2^22) as f64 / real_resamp_ratio as f64
  self.rate        = real_rate as u32

For the controller's crystal value (28_800_000) and every accepted rate,
`xtal * 2^22 < 2^47` and `real_resamp_ratio < 2^29` are both exactly
representable as `f64`, the correctly rounded `f64` quotient differs from
the rational value `xtal*2^22 / real_resamp_ratio` by well under
`2^-29` (half an ulp at magnitude `< 2^22`), and the rational value is
never that close to an integer unless it is one (its denominator is
`< 2^29`).  Hence the `as u32` truncation equals the natural-number
floor division, which is how `realRate` is defined below. -/

/-- The rejection test of `set_sample_rate` (`src/rtlsdr.rs:202`). -/
def sampleRateInvalid (rate : ℕ) : Bool :=
  decide (rate ≤ 225000) || decide (3200000 < rate) ||
    (decide (300000 < rate) && decide (rate ≤ 900000))

/-- `rsamp_ratio = (xtal * 2^22 / rate) & 0x0ffffffc`. -/
def rsampRatio (xtal rate : ℕ) : ℕ :=
  (xtal * 2 ^ 22 / rate) &&& 0x0ffffffc

/-- `real_resamp_ratio = rsamp_ratio | ((rsamp_ratio & 0x08000000) << 1)`:
bit 27 carried into bit 28. -/
def realResampRatio (r : ℕ) : ℕ :=
  r ||| ((r &&& 0x08000000) <<< 1)

/-- The achieved (stored) sample rate; see the floating-point discussion
above for why this is the floor of the rational quotient. -/
def realRate (xtal rate : ℕ) : ℕ :=
  xtal * 2 ^ 22 / realResampRatio (rsampRatio xtal rate)

/-- Result of `set_sample_rate rate` on the controller's default crystal:
`none` for the `Invalid`-error branch, otherwise the value a subsequent
`get_sample_rate` returns (`self.rate`). -/
def setSampleRateResult (rate : ℕ) : Option ℕ :=
  if sampleRateInvalid rate then none
  else some (realRate DEF_RTL_XTAL_FREQ rate)

/-- Masking with `0x0ffffffc` keeps exactly bits 2..27. -/
lemma land_0ffffffc (q : ℕ) :
    q &&& 0x0ffffffc = 2 ^ 2 * (q / 2 ^ 2 % 2 ^ 26) := by
  have hm : (0x0ffffffc : ℕ) = (2 ^ 26 - 1) <<< 2 := by
    rw [Nat.shiftLeft_eq]; norm_num
  have hr : 2 ^ 2 * (q / 2 ^ 2 % 2 ^ 26) = (q >>> 2 % 2 ^ 26) <<< 2 := by
    rw [Nat.shiftLeft_eq, Nat.shiftRight_eq_div_pow, Nat.mul_comm]
  apply Nat.eq_of_testBit_eq
  intro i
  rw [hm, hr]
  simp only [Nat.testBit_and, Nat.testBit_shiftLeft, Nat.testBit_mod_two_pow,
    Nat.testBit_two_pow_sub_one, Nat.testBit_shiftRight]
  rcases Nat.lt_or_ge i 2 with h | h
  · have hd : decide (i ≥ 2) = false := decide_eq_false (by omega)
    simp [hd]
  · have h2 : 2 + (i - 2) = i := by omega
    have hd : decide (i ≥ 2) = true := decide_eq_true (by omega)
    rw [h2, hd]
    cases Nat.testBit q i <;> simp

/-- If `a` is positive then so is `a ||| b`. -/
lemma lor_pos_left {a : ℕ} (b : ℕ) (h : 0 < a) : 0 < a ||| b := by
  rcases Nat.eq_zero_or_pos (a ||| b) with h0 | h0
  · exfalso
    have ha : a = 0 := by
      apply Nat.eq_of_testBit_eq
      intro i
      have := congrArg (fun x => Nat.testBit x i) h0
      simp only [Nat.testBit_or, Nat.zero_testBit] at this ⊢
      cases hb : Nat.testBit a i
      · rfl
      · rw [hb] at this; simp at this
    omega
  · exact h0

/-- For every accepted rate (and the default crystal) the masked
resampling ratio is positive. -/
lemma rsampRatio_pos {rate : ℕ} (h : sampleRateInvalid rate = false) :
    0 < rsampRatio DEF_RTL_XTAL_FREQ rate := by
  have hb : 225000 < rate ∧ rate ≤ 3200000 ∧
      ¬(300000 < rate ∧ rate ≤ 900000) := by
    simp only [sampleRateInvalid, Bool.or_eq_false_iff, Bool.and_eq_false_iff,
      decide_eq_false_iff_not, not_lt, not_le] at h
    omega
  have hX : DEF_RTL_XTAL_FREQ * 2 ^ 22 = 120795955200000 := by
    norm_num [DEF_RTL_XTAL_FREQ]
  rw [rsampRatio, land_0ffffffc, hX]
  have h4 : ((2 : ℕ) ^ 2) = 4 := by norm_num
  have h26 : ((2 : ℕ) ^ 26) = 67108864 := by norm_num
  rw [h4, h26]
  rcases Nat.lt_or_ge 300000 rate with hr | hr
  · -- 900_000 < rate ≤ 3_200_000 : the quotient is in [0x2400000, 2^28)
    have hub : (120795955200000 / rate : ℕ) ≤ 120795955200000 / 900001 :=
      Nat.div_le_div_left (by omega) (by omega)
    have hlb : (120795955200000 / 3200000 : ℕ) ≤ 120795955200000 / rate :=
      Nat.div_le_div_left (by omega) (by omega)
    have e1 : (120795955200000 : ℕ) / 900001 = 134217578 := by norm_num
    have e2 : (120795955200000 : ℕ) / 3200000 = 37748736 := by norm_num
    omega
  · -- 225_000 < rate ≤ 300_000 : the quotient is in [0x18000000, 2^29)
    have hub : (120795955200000 / rate : ℕ) ≤ 120795955200000 / 225001 :=
      Nat.div_le_div_left (by omega) (by omega)
    have hlb : (120795955200000 / 300000 : ℕ) ≤ 120795955200000 / rate :=
      Nat.div_le_div_left (by omega) (by omega)
    have e1 : (120795955200000 : ℕ) / 225001 = 536868525 := by norm_num
    have e2 : (120795955200000 : ℕ) / 300000 = 402653184 := by norm_num
    omega

/-- C1.  `set_sample_rate(hz)` fails with an `Invalid` error iff
`hz ≤ 225_000`, `hz > 3_200_000`, or `300_000 < hz ≤ 900_000`; for every
accepted `hz` the value returned by a subsequent `get_sample_rate()` is
within 1 Hz of `xtal * 2^22 / real_resamp_ratio` (it is the floor of that
rational number: `R * rate ≤ xtal * 2^22 < R * (rate + 1)` with
`R = real_resamp_ratio > 0`). -/
theorem c1_set_sample_rate (hz : ℕ) :
    (setSampleRateResult hz = none ↔
      (hz ≤ 225000 ∨ 3200000 < hz ∨ (300000 < hz ∧ hz ≤ 900000))) ∧
    (∀ r, setSampleRateResult hz = some r →
      0 < realResampRatio (rsampRatio DEF_RTL_XTAL_FREQ hz) ∧
      realResampRatio (rsampRatio DEF_RTL_XTAL_FREQ hz) * r ≤
        DEF_RTL_XTAL_FREQ * 2 ^ 22 ∧
      DEF_RTL_XTAL_FREQ * 2 ^ 22 <
        realResampRatio (rsampRatio DEF_RTL_XTAL_FREQ hz) * (r + 1)) := by
  have hchar : sampleRateInvalid hz = true ↔
      (hz ≤ 225000 ∨ 3200000 < hz ∨ (300000 < hz ∧ hz ≤ 900000)) := by
    simp only [sampleRateInvalid, Bool.or_eq_true, Bool.and_eq_true,
      decide_eq_true_eq]
    omega
  constructor
  · by_cases hv : sampleRateInvalid hz = true
    · simp [setSampleRateResult, hv, hchar.mp hv]
    · have hv' : sampleRateInvalid hz = false := by
        simpa using hv
      have hs : setSampleRateResult hz = some (realRate DEF_RTL_XTAL_FREQ hz) := by
        simp [setSampleRateResult, hv']
      rw [hs]
      constructor
      · intro hx; exact absurd hx (Option.some_ne_none _)
      · intro hp; exact absurd (hchar.mpr hp) hv
  · intro r hr
    have hv' : sampleRateInvalid hz = false := by
      by_contra hc
      have hct : sampleRateInvalid hz = true := by simpa using hc
      simp [setSampleRateResult, hct] at hr
    have hR : 0 < realResampRatio (rsampRatio DEF_RTL_XTAL_FREQ hz) := by
      rw [realResampRatio]
      exact lor_pos_left _ (rsampRatio_pos hv')
    have hrv : realRate DEF_RTL_XTAL_FREQ hz = r := by
      simpa [setSampleRateResult, hv'] using hr
    refine ⟨hR, ?_, ?_⟩
    · rw [← hrv, realRate]
      exact Nat.mul_div_le _ _
    · rw [← hrv, realRate]
      exact Nat.lt_mul_div_succ _ hR

/-- Witness for C1 at the accepted rate 2_048_000 Hz. -/
theorem c1_set_sample_rate_witness :
    0 < realResampRatio (rsampRatio DEF_RTL_XTAL_FREQ 2048000) ∧
    realResampRatio (rsampRatio DEF_RTL_XTAL_FREQ 2048000) * 2048000 ≤
      DEF_RTL_XTAL_FREQ * 2 ^ 22 ∧
    DEF_RTL_XTAL_FREQ * 2 ^ 22 <
      realResampRatio (rsampRatio DEF_RTL_XTAL_FREQ 2048000) * (2048000 + 1) :=
  (c1_set_sample_rate 2048000).2 2048000 (by decide)

/-! ## FIR coefficient packing (`RtlSdr::set_fir`)

The source packs 16 `i32` coefficients into 20 bytes: the first 8 as one
byte each (`val as u8`, after a range check for i8), the remaining 8 in
pairs `(v0, v1)` as the three bytes
`(v0 >> 4) as u8`, `((v0 << 4) | ((v1 >> 8) & 0x0f)) as u8`, `v1 as u8`
(after a range check for i12).  On `i32`:
 - `v >> k` (arithmetic) is flooring division, i.e. `v / 2^k` on `ℤ`;
 - `v & (2^k - 1)` is the two's-complement low bits, i.e. `v % 2^k` on `ℤ`;
 - `as u8` keeps the low 8 bits, i.e. `% 256`;
 - `(v0 << 4) | nib` with `nib < 16` ORs into the zero low nibble of
   `v0 << 4`, hence equals `v0 * 16 + nib` before the `as u8` truncation. -/

/-- One packed pair of i12 FIR coefficients (three bytes), from
`src/rtlsdr.rs:532-534`. -/
def packPair (v0 v1 : ℤ) : List ℤ :=
  [v0 / 16 % 256, (v0 * 16 + v1 / 256 % 16) % 256, v1 % 256]

/-- `set_fir`'s byte packing; `none` models the out-of-range panics. -/
def packFir : List ℤ → Option (List ℤ)
  | [a0, a1, a2, a3, a4, a5, a6, a7, b0, b1, b2, b3, b4, b5, b6, b7] =>
    if (-128 ≤ a0 ∧ a0 ≤ 127) ∧ (-128 ≤ a1 ∧ a1 ≤ 127) ∧
       (-128 ≤ a2 ∧ a2 ≤ 127) ∧ (-128 ≤ a3 ∧ a3 ≤ 127) ∧
       (-128 ≤ a4 ∧ a4 ≤ 127) ∧ (-128 ≤ a5 ∧ a5 ≤ 127) ∧
       (-128 ≤ a6 ∧ a6 ≤ 127) ∧ (-128 ≤ a7 ∧ a7 ≤ 127) ∧
       (-2048 ≤ b0 ∧ b0 ≤ 2047) ∧ (-2048 ≤ b1 ∧ b1 ≤ 2047) ∧
       (-2048 ≤ b2 ∧ b2 ≤ 2047) ∧ (-2048 ≤ b3 ∧ b3 ≤ 2047) ∧
       (-2048 ≤ b4 ∧ b4 ≤ 2047) ∧ (-2048 ≤ b5 ∧ b5 ≤ 2047) ∧
       (-2048 ≤ b6 ∧ b6 ≤ 2047) ∧ (-2048 ≤ b7 ∧ b7 ≤ 2047) then
      some ([a0 % 256, a1 % 256, a2 % 256, a3 % 256,
             a4 % 256, a5 % 256, a6 % 256, a7 % 256] ++
            packPair b0 b1 ++ packPair b2 b3 ++ packPair b4 b5 ++ packPair b6 b7)
    else none
  | _ => none

/-- Decode one byte as an i8 value. -/
def sign8 (b : ℤ) : ℤ := if 128 ≤ b then b - 256 else b

/-- Decode a 12-bit pattern as an i12 value. -/
def sign12 (x : ℤ) : ℤ := if 2048 ≤ x then x - 4096 else x

/-- The inverse decoder of the FIR byte layout (the `unpack` of the
claim): one i8 per byte for the first 8 bytes, then each 3-byte group
holds two i12 values, the first in bits 19..8, the second in bits 7..0
of the 24-bit group. -/
def unpackFir : List ℤ → Option (List ℤ)
  | [t0, t1, t2, t3, t4, t5, t6, t7, t8, t9, t10, t11, t12, t13, t14, t15,
     t16, t17, t18, t19] =>
    some [sign8 t0, sign8 t1, sign8 t2, sign8 t3,
          sign8 t4, sign8 t5, sign8 t6, sign8 t7,
          sign12 (t8 * 16 + t9 / 16), sign12 (t9 % 16 * 256 + t10),
          sign12 (t11 * 16 + t12 / 16), sign12 (t12 % 16 * 256 + t13),
          sign12 (t14 * 16 + t15 / 16), sign12 (t15 % 16 * 256 + t16),
          sign12 (t17 * 16 + t18 / 16), sign12 (t18 % 16 * 256 + t19)]
  | _ => none

/-- C7.  FIR packing round-trips: for coefficients with the first 8 in
[-128, 127] and the last 8 in [-2048, 2047], `set_fir`'s packing produces
20 bytes and unpacking them recovers the coefficients exactly (so the
packing is injective on that domain). -/
theorem c7_fir_roundtrip (a0 a1 a2 a3 a4 a5 a6 a7 b0 b1 b2 b3 b4 b5 b6 b7 : ℤ)
    (h : (-128 ≤ a0 ∧ a0 ≤ 127) ∧ (-128 ≤ a1 ∧ a1 ≤ 127) ∧
         (-128 ≤ a2 ∧ a2 ≤ 127) ∧ (-128 ≤ a3 ∧ a3 ≤ 127) ∧
         (-128 ≤ a4 ∧ a4 ≤ 127) ∧ (-128 ≤ a5 ∧ a5 ≤ 127) ∧
         (-128 ≤ a6 ∧ a6 ≤ 127) ∧ (-128 ≤ a7 ∧ a7 ≤ 127) ∧
         (-2048 ≤ b0 ∧ b0 ≤ 2047) ∧ (-2048 ≤ b1 ∧ b1 ≤ 2047) ∧
         (-2048 ≤ b2 ∧ b2 ≤ 2047) ∧ (-2048 ≤ b3 ∧ b3 ≤ 2047) ∧
         (-2048 ≤ b4 ∧ b4 ≤ 2047) ∧ (-2048 ≤ b5 ∧ b5 ≤ 2047) ∧
         (-2048 ≤ b6 ∧ b6 ≤ 2047) ∧ (-2048 ≤ b7 ∧ b7 ≤ 2047)) :
    ∃ t, packFir [a0, a1, a2, a3, a4, a5, a6, a7,
                  b0, b1, b2, b3, b4, b5, b6, b7] = some t ∧
      t.length = 20 ∧
      unpackFir t = some [a0, a1, a2, a3, a4, a5, a6, a7,
                          b0, b1, b2, b3, b4, b5, b6, b7] := by
  refine ⟨[a0 % 256, a1 % 256, a2 % 256, a3 % 256,
           a4 % 256, a5 % 256, a6 % 256, a7 % 256] ++
          packPair b0 b1 ++ packPair b2 b3 ++ packPair b4 b5 ++ packPair b6 b7,
         ?_, ?_, ?_⟩
  · rw [packFir, if_pos h]
  · simp [packPair]
  · obtain ⟨h0, h1, h2, h3, h4, h5, h6, h7,
      g0, g1, g2, g3, g4, g5, g6, g7⟩ := h
    simp only [packPair, List.cons_append, List.nil_append, unpackFir,
      sign8, sign12, Option.some.injEq, List.cons.injEq, and_true]
    refine ⟨?_, ?_, ?_, ?_, ?_, ?_, ?_, ?_, ?_, ?_, ?_, ?_, ?_, ?_, ?_, ?_⟩ <;>
      split_ifs <;> omega

/-- Witness for C7 on the default FIR table. -/
theorem c7_fir_roundtrip_witness :
    ∃ t, packFir [-54, -36, -41, -40, -32, -14, 14, 53,
                  101, 156, 215, 273, 327, 372, 404, 421] = some t ∧
      t.length = 20 ∧
      unpackFir t = some [-54, -36, -41, -40, -32, -14, 14, 53,
                          101, 156, 215, 273, 327, 372, 404, 421] :=
  c7_fir_roundtrip (-54) (-36) (-41) (-40) (-32) (-14) 14 53
    101 156 215 273 327 372 404 421 (by norm_num)

/-! ## `Device::read_eeprom` (`src/device/mod.rs:136-143`) -/

/-- An EEPROM-level transfer: the address write or a one-byte read. -/
inductive EAct where
  | eWrite (data : List ℕ)
  | eRead
deriving DecidableEq

/-- `EEPROM_SIZE` from `src/device/constants.rs`. -/
def EEPROM_SIZE : ℕ := 256

/-- `read_eeprom(offset, len)`: asserts `len + offset ≤ EEPROM_SIZE`
(`none` models the panic), then issues one write of `[offset]` to the
EEPROM address followed by `len` one-byte reads, returning `len`. -/
def read_eeprom (offset len : ℕ) : Option (List EAct × ℕ) :=
  if EEPROM_SIZE < len + offset then none
  else some (EAct.eWrite [offset] :: List.replicate len EAct.eRead, len)

/-- C9.  `read_eeprom(offset, len)` panics iff `offset + len > 256`;
otherwise it issues a single `[offset]` write then `len` individual
one-byte reads, and returns `len`. -/
theorem c9_read_eeprom (offset len : ℕ) :
    (read_eeprom offset len = none ↔ 256 < offset + len) ∧
    (∀ tr n, read_eeprom offset len = some (tr, n) →
      tr = EAct.eWrite [offset] :: List.replicate len EAct.eRead ∧ n = len) := by
  constructor
  · have hiff : read_eeprom offset len = none ↔ EEPROM_SIZE < len + offset := by
      unfold read_eeprom
      split_ifs with hc
      · simpa using hc
      · simp [hc]
    rw [hiff, EEPROM_SIZE]
    omega
  · intro tr n hr
    unfold read_eeprom at hr
    split_ifs at hr with hc
    simp only [Option.some.injEq, Prod.mk.injEq] at hr
    exact ⟨hr.1.symm, hr.2.symm⟩

/-- Witness for C9 at `offset = 10`, `len = 5`. -/
theorem c9_read_eeprom_witness :
    read_eeprom 10 5 =
      some (EAct.eWrite [10] :: List.replicate 5 EAct.eRead, 5) ∧
    (EAct.eWrite [10] :: List.replicate 5 EAct.eRead =
      EAct.eWrite [10] :: List.replicate 5 EAct.eRead ∧ (5 : ℕ) = 5) :=
  ⟨by decide,
   (c9_read_eeprom 10 5).2 (EAct.eWrite [10] :: List.replicate 5 EAct.eRead) 5
     (by decide)⟩

/-! ## `Device::demod_write_reg` (`src/device/mod.rs:105-130`)

`demod_write_reg(page, addr, val, len)` asserts `len ∈ {1, 2}`, issues one
control-OUT transfer of the big-endian-encoded byte(s) of `val` to address
`(addr << 8) | 0x20` with index `0x10 | page`; a failure of that transfer
is logged and replaced by `bytes = 0`.  It then calls
`demod_read_reg(0x0a, 0x01)` (one control-IN to `(0x01 << 8) | 0x20` with
index `0x0a`), whose own failure is also swallowed inside `demod_read_reg`
(its `Result` is bound to an unused variable), and returns `Ok(bytes)`. -/

/-- A raw control transfer, as issued by the register plane. -/
inductive CAct where
  | ctrlOut (addr index : ℕ) (data : List ℕ)
  | ctrlIn (addr index len : ℕ)
deriving DecidableEq

/-- `val.to_be_bytes()` with the high byte dropped when `len = 1`
(`val` is a `u16`). -/
def beBytes (val len : ℕ) : List ℕ :=
  if len = 1 then [val % 256] else [val % 65536 / 256, val % 256]

/-- The control transfer issued by `demod_read_reg(page, addr)`. -/
def demod_read_reg_tr (page addr : ℕ) : List CAct :=
  [CAct.ctrlIn ((addr <<< 8) ||| 0x20) page 1]

/-- `demod_write_reg`; `writeOutcome = none` means the underlying
control-OUT transfer failed (`some n` = it transferred `n` bytes).  The
result component models the returned `Result<usize>` (`some` = `Ok`). -/
def demod_write_reg (page addr val len : ℕ) (writeOutcome : Option ℕ) :
    Option (List CAct × Option ℕ) :=
  if len = 1 ∨ len = 2 then
    some (CAct.ctrlOut ((addr <<< 8) ||| 0x20) (0x10 ||| page) (beBytes val len) ::
            demod_read_reg_tr 0x0a 0x1,
          some (writeOutcome.getD 0))
  else none

/-- C3.  Every `demod_write_reg(page, addr, val, len)` issues exactly one
control-OUT write of the encoded byte(s) to `(addr << 8) | 0x20` with
index `0x10 | page`, followed by exactly one `demod_read_reg(0x0a, 0x01)`
dummy read; and even when the underlying write fails (`w = none`) the
call still performs the dummy read and returns `Ok` rather than the
error. -/
theorem c3_demod_write_reg (page addr val len : ℕ) (w : Option ℕ)
    (h : len = 1 ∨ len = 2) :
    ∃ n, demod_write_reg page addr val len w =
      some ([CAct.ctrlOut ((addr <<< 8) ||| 0x20) (0x10 ||| page)
               (beBytes val len),
             CAct.ctrlIn ((0x1 <<< 8) ||| 0x20) 0x0a 1], some n) := by
  refine ⟨w.getD 0, ?_⟩
  unfold demod_write_reg
  rw [if_pos h]
  rfl

/-- Witness for C3: a 2-byte write whose control-OUT transfer fails. -/
theorem c3_demod_write_reg_witness :
    ∃ n, demod_write_reg 1 0x9f 0x0384 2 none =
      some ([CAct.ctrlOut ((0x9f <<< 8) ||| 0x20) (0x10 ||| 1)
               (beBytes 0x0384 2),
             CAct.ctrlIn ((0x1 <<< 8) ||| 0x20) 0x0a 1], some n) :=
  c3_demod_write_reg 1 0x9f 0x0384 2 none (Or.inr rfl)

/-! ## `R820T::write_regs` chunking (`src/tuners/r820t.rs:994-1021`)

`write_regs(reg, val)` loops: `size = if len > MAX_I2C_MSG_LEN - 1
{ MAX_I2C_MSG_LEN } else { len }`, builds `buf = [reg_index] ++ data`
of `size + 1` bytes, issues `i2c_write(0x34, buf)`, advances by `size`,
and stops when `len - size` reaches 0.  Note the full chunks carry
`MAX_I2C_MSG_LEN = 8` data bytes, so those transactions are 9 bytes. -/

/-- `MAX_I2C_MSG_LEN` from `src/tuners/r820t.rs`. -/
def MAX_I2C_MSG_LEN : ℕ := 8

/-- `REG_INIT` from `src/tuners/r820t.rs` (27 bytes, registers 5..31). -/
def REG_INIT : List ℕ :=
  [0x83, 0x32, 0x75,
   0xc0, 0x40, 0xd6, 0x6c,
   0xf5, 0x63, 0x75, 0x68,
   0x6c, 0x83, 0x80, 0x00,
   0x0f, 0x00, 0xc0, 0x30,
   0x48, 0xcc, 0x60, 0x00,
   0x54, 0xae, 0x4a, 0xc0]

/-- The loop of `write_regs`, with an explicit fuel argument for
structural recursion; each iteration consumes at least one `val` element,
so `val.length + 1` fuel always suffices. -/
def writeRegsBufsAux : ℕ → ℕ → List ℕ → List (List ℕ)
  | 0, _, _ => []
  | fuel + 1, reg, val =>
    if MAX_I2C_MSG_LEN - 1 < val.length then
      if val.length - MAX_I2C_MSG_LEN = 0 then
        [reg :: val.take MAX_I2C_MSG_LEN]
      else
        (reg :: val.take MAX_I2C_MSG_LEN) ::
          writeRegsBufsAux fuel (reg + MAX_I2C_MSG_LEN) (val.drop MAX_I2C_MSG_LEN)
    else [reg :: val.take val.length]

/-- The sequence of i2c transaction buffers issued by
`R820T::write_regs(reg, val)` (each sent to address 0x34). -/
def writeRegsBufs (reg : ℕ) (val : List ℕ) : List (List ℕ) :=
  writeRegsBufsAux (val.length + 1) reg val

/-- C4.  Evaluating `write_regs(0x05, REG_INIT)` (the 27-byte init image):
the four i2c transactions have 9, 9, 9 and 4 bytes — the full chunks
carry 1 register byte plus 8 (not 7) data bytes, exceeding the 8-byte
bound stated by the specification. -/
theorem c4_write_regs_chunk_nine :
    (writeRegsBufs 0x05 REG_INIT).map List.length = [9, 9, 9, 4] ∧
    ∃ buf ∈ writeRegsBufs 0x05 REG_INIT, MAX_I2C_MSG_LEN < buf.length := by
  decide

/-! ## `R820T::write_reg_mask` and the register cache
(`src/tuners/r820t.rs:973-991`, `1035-1042`)

The cache holds the 27 writable register images (chip registers 5..31 at
cache indices 0..26).  `write_reg_mask(reg, val, mask)` reads the cached
image, computes `(rc & !mask) | (val & mask)` and hands that single byte
to `write_regs`, which stores it back in the cache and issues the i2c
write.  `!mask` on a `u8` is `0xff ^^^ mask`. -/

/-- `RW_REG_START` from `src/tuners/r820t.rs`. -/
def RW_REG_START : ℕ := 5

/-- `read_cache_reg`; the source's asserts (`RW_REG_START ≤ reg`,
index within the 27-entry cache) hold on the claims' domain, so the
default branch is never taken there. -/
def read_cache_reg (regs : Fin 27 → ℕ) (reg : ℕ) : ℕ :=
  if h : reg - RW_REG_START < 27 then regs ⟨reg - RW_REG_START, h⟩ else 0

/-- `reg_cache_store`: copy `val` into the cache at indices
`reg - RW_REG_START ..`. -/
def reg_cache_store (regs : Fin 27 → ℕ) (reg : ℕ) (val : List ℕ) :
    Fin 27 → ℕ :=
  fun j =>
    if reg - RW_REG_START ≤ j.val ∧ j.val < reg - RW_REG_START + val.length
    then val.getD (j.val - (reg - RW_REG_START)) 0
    else regs j

/-- `write_regs`: update the cache, then issue the chunked i2c writes. -/
def write_regs (regs : Fin 27 → ℕ) (reg : ℕ) (val : List ℕ) :
    (Fin 27 → ℕ) × List (List ℕ) :=
  (reg_cache_store regs reg val, writeRegsBufs reg val)

/-- `write_reg_mask(reg, val, mask)`. -/
def write_reg_mask (regs : Fin 27 → ℕ) (reg val mask : ℕ) :
    (Fin 27 → ℕ) × List (List ℕ) :=
  write_regs regs reg
    [(read_cache_reg regs reg &&& (0xff ^^^ mask)) ||| (val &&& mask)]

/-- C10.  For `reg ∈ 5..=31`, a `write_reg_mask(reg, val, mask)` issues
exactly one i2c transaction carrying exactly one data byte equal to
`(cache[reg] & !mask) | (val & mask)`, stores that same byte in the
cached image of `reg`, and leaves every other cached register
unchanged. -/
theorem c10_write_reg_mask (regs : Fin 27 → ℕ) (reg val mask : ℕ)
    (h5 : 5 ≤ reg) (h31 : reg ≤ 31) (hmask : mask < 256) :
    (write_reg_mask regs reg val mask).2 =
      [[reg, (read_cache_reg regs reg &&& (0xff ^^^ mask)) ||| (val &&& mask)]] ∧
    (∀ j : Fin 27, j.val = reg - 5 →
      (write_reg_mask regs reg val mask).1 j =
        (read_cache_reg regs reg &&& (0xff ^^^ mask)) ||| (val &&& mask)) ∧
    (∀ j : Fin 27, j.val ≠ reg - 5 →
      (write_reg_mask regs reg val mask).1 j = regs j) := by
  refine ⟨rfl, ?_, ?_⟩
  · intro j hj
    have hc : reg - RW_REG_START ≤ j.val ∧
        j.val < reg - RW_REG_START + 1 := by
      rw [RW_REG_START]; omega
    simp only [write_reg_mask, write_regs, reg_cache_store, List.length_cons,
      List.length_nil]
    rw [if_pos hc]
    have h0 : j.val - (reg - RW_REG_START) = 0 := by
      rw [RW_REG_START]; omega
    rw [h0]
    rfl
  · intro j hj
    have hc : ¬(reg - RW_REG_START ≤ j.val ∧
        j.val < reg - RW_REG_START + 1) := by
      rw [RW_REG_START]; omega
    simp only [write_reg_mask, write_regs, reg_cache_store, List.length_cons,
      List.length_nil]
    rw [if_neg hc]

/-- Witness for C10: zeroed cache, `reg = 0x0b`, `val = 0x6b`,
`mask = 0xef`. -/
theorem c10_write_reg_mask_witness :
    (write_reg_mask (fun _ => 0) 0x0b 0x6b 0xef).2 =
      [[0x0b, (read_cache_reg (fun _ => 0) 0x0b &&& (0xff ^^^ 0xef)) |||
          (0x6b &&& 0xef)]] :=
  (c10_write_reg_mask (fun _ => 0) 0x0b 0x6b 0xef (by decide) (by decide)
    (by decide)).1

/-! ## `R820T::set_pll` failure condition (`src/tuners/r820t.rs:573-697`)

`set_pll(freq)` computes `freq_khz = (freq + 500) / 1000`, searches
`mix_div ∈ {2, 4, 8, 16, 32, 64}` for the first with
`freq_khz * mix_div ∈ [1_770_000, 3_540_000)` (leaving `mix_div = 128`
when none qualifies), sets `vco_freq = freq * mix_div` (u64) and
`nint = (vco_freq / (2 * xtal)) as u8` — an 8-bit truncation — and
returns the "No valid PLL values" error iff `nint > 128/2 - 1 = 63`.
That `return Err` is the only error exit of `set_pll` on a healthy
transport: the later lock poll deliberately returns `Ok` even when the
PLL does not lock.  The model below captures exactly this decision. -/

/-- The `mix_div` range search of `set_pll`. -/
def findMixDiv (f : ℕ) : ℕ :=
  if 1770000 ≤ f * 2 ∧ f * 2 < 3540000 then 2
  else if 1770000 ≤ f * 4 ∧ f * 4 < 3540000 then 4
  else if 1770000 ≤ f * 8 ∧ f * 8 < 3540000 then 8
  else if 1770000 ≤ f * 16 ∧ f * 16 < 3540000 then 16
  else if 1770000 ≤ f * 32 ∧ f * 32 < 3540000 then 32
  else if 1770000 ≤ f * 64 ∧ f * 64 < 3540000 then 64
  else 128

/-- `nint` as the source computes it: the u8 truncation of
`vco_freq / (2 * xtal)`. -/
def setPllNintU8 (freq xtal : ℕ) : ℕ :=
  freq * findMixDiv ((freq + 500) / 1000) / (2 * xtal) % 256

/-- Whether `set_pll(freq)` takes the "No valid PLL values" error
branch. -/
def setPllFails (freq xtal : ℕ) : Bool :=
  decide (63 < setPllNintU8 freq xtal)

/-- C8 counterexample.  At `freq = 100 MHz`, `xtal = 6 MHz` the range
search selects `mix_div = 32`, the claim's `nint = vco_freq / (2*xtal)`
is `266 > 63`, yet `set_pll` does not fail: the u8 truncation turns 266
into 10, which passes the `> 63` test. -/
theorem c8_counterexample :
    63 < 100000000 * findMixDiv ((100000000 + 500) / 1000) / (2 * 6000000) ∧
    100000000 * findMixDiv ((100000000 + 500) / 1000) / (2 * 6000000) = 266 ∧
    setPllFails 100000000 6000000 = false := by
  decide

/-- C8 amended.  `set_pll(freq)` fails with "No valid PLL values" iff the
u8 truncation of `vco_freq / (2 * xtal)` — not the full quotient —
exceeds 63, where `vco_freq = freq * mix_div` with `mix_div` from the
range search. -/
theorem c8_set_pll_fail_iff (freq xtal : ℕ) (hx : 0 < xtal) :
    setPllFails freq xtal = true ↔
      63 < freq * findMixDiv ((freq + 500) / 1000) / (2 * xtal) % 256 := by
  rw [setPllFails, setPllNintU8]
  exact decide_eq_true_iff

/-- Witness for C8 (amended) at `freq = 3.6 GHz`, `xtal = 28.8 MHz`:
the truncated `nint` is 64 and `set_pll` fails. -/
theorem c8_set_pll_fail_iff_witness :
    setPllFails 3600000000 28800000 = true :=
  (c8_set_pll_fail_iff 3600000000 28800000 (by decide)).mpr (by decide)

/-! ## Controller-level device-operation traces (`src/rtlsdr.rs`)

The public operations of `RtlSdr` are modelled as functions producing the
sequence of device operations they perform, at the granularity of the
`Device` API: `write_reg`, `read_reg`, `demod_write_reg` (one event each,
C3 covers its internals), `read_eeprom`, the tuner probe of
`search_tuner`, and calls into tuner operations that receive the device
handle (one abstract `top` event each — their internal i2c traffic is the
tuner's, bracketed as a unit by the controller).

Error modelling: `demod_write_reg` can never return an error (C3), so
demod writes are infallible here.  Calls into the tuner can fail (from
i2c transport errors, or `set_pll`'s parameter check inside `set_freq`);
each such call takes an explicit success flag, and a failure makes the
public operation return early, exactly as the `?` operator does.  The
remaining fallible transport operations (`write_reg`, `read_eeprom`, the
probe) can only truncate a trace at a point where no tuner operation is
pending, and are modelled as succeeding.

The controller under verification drives an R820T (the only supported
tuner): `tuner.get_info()` comparisons against `TUNER_ID` take the R820T
branch, and `tuner.init` sets the tuner IF (`int_freq`) to 3_570_000
(`set_tv_standard`).  The bias-tee/GPIO paths are outside the claims and
are not modelled.  The `rtl_sdr_blog` cargo feature is disabled, so
`set_offset_tuning` performs no device operation. -/

/-- `DirectSampleMode`. -/
inductive DSMode where
  | off
  | on
  | onSwap
deriving DecidableEq

/-- The tuner operations that receive the device handle. -/
inductive TOp where
  | tInit
  | tExit
  | tSetFreq
  | tSetGain
  | tSetBandwidth
deriving DecidableEq

/-- One device operation, as seen at the `Device` API granularity. -/
inductive Ev where
  | wr (block addr val : ℕ)
  | rd (block addr : ℕ)
  | dw (page addr val len : ℕ)
  | eep (offset len : ℕ)
  | probe (i2cAddr regAddr : ℕ)
  | top (o : TOp)
deriving DecidableEq

/-- Result of `set_sample_rate`: success, the `Invalid`-rate error, or a
propagated tuner error. -/
inductive SRes where
  | ok
  | invalid
  | terr
deriving DecidableEq

def BLOCK_USB : ℕ := 1
def BLOCK_SYS : ℕ := 2
def USB_SYSCTL : ℕ := 0x2000
def USB_EPA_CTL : ℕ := 0x2148
def USB_EPA_MAXPKT : ℕ := 0x2158
def DEMOD_CTL : ℕ := 0x3000
def DEMOD_CTL_1 : ℕ := 0x300b

/-- `set_i2c_repeater(enable)`: one demod write of 0x18 (enable) or 0x10
(disable) to page 1 addr 0x01. -/
def repTr (enable : Bool) : List Ev :=
  [Ev.dw 1 0x01 (if enable then 0x18 else 0x10) 1]

/-- The signed 22-bit IF word of `set_if_freq`:
`(freq as f64 * 2^22 / DEF_RTL_XTAL_FREQ * -1) as i32`.  The `f64`
computation truncates toward zero; for every call modelled here
`freq * 2^22 < 2^53`, both operands are exact, and the quotient is never
within the rounding error of a different integer, so the truncation
equals the negated natural-number floor. -/
def ifFreqVal (freq : ℕ) : ℤ :=
  -((freq * 2 ^ 22 / DEF_RTL_XTAL_FREQ : ℕ) : ℤ)

/-- `set_if_freq(freq)`: three demod writes carrying the 22-bit IF word
(`(v >> 16) & 0x3f`, `(v >> 8) & 0xff`, `v & 0xff` on the i32). -/
def setIfFreqTr (freq : ℕ) : List Ev :=
  [Ev.dw 1 0x19 ((ifFreqVal freq / 65536 % 64).toNat) 1,
   Ev.dw 1 0x1a ((ifFreqVal freq / 256 % 256).toNat) 1,
   Ev.dw 1 0x1b ((ifFreqVal freq % 256).toNat) 1]

/-- `DEFAULT_FIR` from `src/rtlsdr.rs`. -/
def defaultFir : List ℤ :=
  [-54, -36, -41, -40, -32, -14, 14, 53,
   101, 156, 215, 273, 327, 372, 404, 421]

/-- `set_fir(fir)`: the 20 packed bytes written to demod page-1 registers
0x1c..0x2f, one register per byte. -/
def setFirTr (fir : List ℤ) : List Ev :=
  (List.range 20).map fun i =>
    Ev.dw 1 (0x1c + i) ((((packFir fir).getD []).getD i 0).toNat) 1

/-- `init_baseband`: the fixed register-write sequence of
`src/rtlsdr.rs:396-447`. -/
def initBasebandTr : List Ev :=
  [Ev.wr BLOCK_USB USB_SYSCTL 0x09,
   Ev.wr BLOCK_USB USB_EPA_MAXPKT 0x0002,
   Ev.wr BLOCK_USB USB_EPA_CTL 0x1002,
   Ev.wr BLOCK_SYS DEMOD_CTL_1 0x22,
   Ev.wr BLOCK_SYS DEMOD_CTL 0xe8,
   Ev.dw 1 0x01 0x14 1, Ev.dw 1 0x01 0x10 1,
   Ev.dw 1 0x15 0x00 1,
   Ev.dw 1 0x16 0x00 2,
   Ev.dw 1 0x16 0x00 1, Ev.dw 1 0x17 0x00 1, Ev.dw 1 0x18 0x00 1,
   Ev.dw 1 0x19 0x00 1, Ev.dw 1 0x1a 0x00 1] ++
  setFirTr defaultFir ++
  [Ev.dw 0 0x19 0x05 1,
   Ev.dw 1 0x93 0xf0 1, Ev.dw 1 0x94 0x0f 1,
   Ev.dw 1 0x11 0x00 1,
   Ev.dw 1 0x04 0x00 1,
   Ev.dw 0 0x61 0x60 1,
   Ev.dw 0 0x06 0x80 1,
   Ev.dw 1 0xb1 0x1b 1,
   Ev.dw 0 0x0d 0x83 1]

/-- `RtlSdr::init` (`src/rtlsdr.rs:62-122`): `test_write`,
`init_baseband`, repeater on, tuner probe (the single known tuner, the
R820T at i2c 0x34 / check register 0x00), Zero-IF off, in-phase ADC only,
IF to `R82XX_IF_FREQ`, spectrum inversion, the EEPROM read for the
force-bias-tee / force-direct-sampling flags, `tuner.init`
(success flag `okI`), repeater off. -/
def initTr (okI : Bool) : List Ev :=
  [Ev.wr BLOCK_USB USB_SYSCTL 0x09] ++
  initBasebandTr ++
  repTr true ++
  [Ev.probe 0x34 0x00] ++
  [Ev.dw 1 0xb1 0x1a 1, Ev.dw 0 0x08 0x4d 1] ++
  setIfFreqTr 3570000 ++
  [Ev.dw 1 0x15 0x01 1] ++
  [Ev.eep 0 256] ++
  [Ev.top TOp.tInit] ++
  (if okI then repTr false else [])

/-- The low-pass filter table walk of `R820T::set_bandwidth`: the index
of the last table entry not exceeded by the residual bandwidth. -/
def lpIdx (bw : ℤ) : ℕ :=
  if bw > 1700000 then 0
  else if bw > 1600000 then 0
  else if bw > 1550000 then 1
  else if bw > 1450000 then 2
  else if bw > 1200000 then 3
  else if bw > 900000 then 4
  else if bw > 700000 then 5
  else if bw > 550000 then 6
  else if bw > 450000 then 7
  else if bw > 350000 then 8
  else 9

/-- `R82XX_IF_LOW_PASS_BW_TABLE`. -/
def lpTable : List ℤ :=
  [1700000, 1600000, 1550000, 1450000, 1200000,
   900000, 700000, 550000, 450000, 350000]

/-- The IF frequency (`int_freq`) set by `R820T::set_bandwidth(bw, _)`
(`src/tuners/r820t.rs:438-500`). -/
def r82xxIntFreq (bwIn : ℕ) : ℕ :=
  let bw : ℤ := bwIn
  if bw > 7000000 then 4570000
  else if bw > 6000000 then 4570000
  else if bw > 1700000 + 350000 + 380000 then 3570000
  else
    let s1 : ℤ × ℤ × ℤ :=
      if bw > 1700000 + 350000 then (bw - 380000, 2300000 + 380000, 380000)
      else (bw, 2300000, 0)
    let s2 : ℤ × ℤ × ℤ :=
      if s1.1 > 1700000 then (s1.1 - 350000, s1.2.1 + 350000, s1.2.2 + 350000)
      else s1
    let rbw := s2.2.2 + lpTable.getD (lpIdx s2.1) 0
    (s2.2.1 - rbw / 2).toNat

/-- The controller state fields the modelled operations read or write. -/
structure SdrSt where
  freq : ℕ
  rate : ℕ
  bw : ℕ
  offsetFreq : ℕ
  corr : ℤ
  ds : DSMode
  forceDS : Bool
  intFreq : ℕ
  xtal : ℕ

/-- `set_center_freq(freq)`: with direct sampling off, `tuner.set_freq`
bracketed by the repeater (failure of the tuner call aborts before the
repeater-off write); otherwise `set_if_freq(freq)`. -/
def setCenterFreqTr (s : SdrSt) (freq : ℕ) (ok : Bool) :
    List Ev × SdrSt × Bool :=
  match s.ds with
  | DSMode.off =>
    if ok then
      (repTr true ++ [Ev.top TOp.tSetFreq] ++ repTr false,
       { s with freq := freq }, true)
    else
      (repTr true ++ [Ev.top TOp.tSetFreq], s, false)
  | _ => (setIfFreqTr freq, { s with freq := freq }, true)

/-- `set_tuner_gain`: `tuner.set_gain` bracketed by the repeater. -/
def setTunerGainTr (ok : Bool) : List Ev :=
  repTr true ++ [Ev.top TOp.tSetGain] ++ (if ok then repTr false else [])

/-- `set_sample_freq_correction(ppm)`: two demod writes carrying the
14-bit signed `offs = (-ppm * 2^24 / 10^6) as i16` (Rust `/` on i32
truncates toward zero, `Int.tdiv`). -/
def sampleFreqCorrTr (ppm : ℤ) : List Ev :=
  let offs : ℤ := Int.tdiv (ppm * (-1) * 2 ^ 24) 1000000 % 65536
  let offsS : ℤ := if 32768 ≤ offs then offs - 65536 else offs
  [Ev.dw 1 0x3f ((offsS % 256).toNat) 1,
   Ev.dw 1 0x3e ((offsS / 256 % 64).toNat) 1]

/-- `set_sample_rate(rate)` (`src/rtlsdr.rs:200-248`): the validity
check, the ratio computation, `tuner.set_bandwidth` bracketed by the
repeater (success flag `ok1`), the R820T branch re-writing the IF and
re-tuning (`tuner.set_freq` success flag `ok2`), the two ratio writes to
demod-1 0x9f/0xa1, the PPM-correction rewrite, and the demod soft-reset
pulse.  `set_offset_tuning` adds no device operation in the default
build. -/
def setSampleRateTr (s : SdrSt) (rate : ℕ) (ok1 ok2 : Bool) :
    List Ev × SdrSt × SRes :=
  if sampleRateInvalid rate then ([], s, SRes.invalid)
  else
    let rs := rsampRatio s.xtal rate
    let rr := realResampRatio rs
    let s1 : SdrSt := { s with rate := s.xtal * 2 ^ 22 / rr }
    let bwVal := if 0 < s1.bw then s1.bw else s1.rate
    let s2 : SdrSt := { s1 with intFreq := r82xxIntFreq bwVal }
    let pre := repTr true ++ [Ev.top TOp.tSetBandwidth]
    if ok1 = false then (pre, s2, SRes.terr)
    else
      let c := setCenterFreqTr s2 s2.freq ok2
      let t1 := pre ++ repTr false ++ setIfFreqTr s2.intFreq ++ c.1
      if c.2.2 = false then (t1, c.2.1, SRes.terr)
      else
        (t1 ++ [Ev.dw 1 0x9f (rs / 65536) 2, Ev.dw 1 0xa1 (rs % 65536) 2] ++
           sampleFreqCorrTr c.2.1.corr ++
           [Ev.dw 1 0x01 0x14 1, Ev.dw 1 0x01 0x10 1],
         c.2.1, SRes.ok)

/-- `set_tuner_bandwidth(bw)`: `tuner.set_bandwidth` bracketed by the
repeater, then (R820T) IF rewrite and re-tune. -/
def setTunerBandwidthTr (s : SdrSt) (bw0 : ℕ) (ok1 ok2 : Bool) :
    List Ev × SdrSt × Bool :=
  let bw := if 0 < bw0 then bw0 else s.rate
  let s1 : SdrSt := { s with intFreq := r82xxIntFreq bw }
  let pre := repTr true ++ [Ev.top TOp.tSetBandwidth]
  if ok1 = false then (pre, s1, false)
  else
    let c := setCenterFreqTr s1 s1.freq ok2
    let t1 := pre ++ repTr false ++ setIfFreqTr s1.intFreq ++ c.1
    if c.2.2 = false then (t1, c.2.1, false)
    else (t1, { c.2.1 with bw := bw }, true)

/-- `set_direct_sampling(mode)` (`src/rtlsdr.rs:275-331`): On/OnSwap
disable the tuner and select the direct path; Off re-runs `tuner.init`
(R820T branch).  Every transition ends with `set_center_freq(self.freq)`
on the new path. -/
def setDirectSamplingTr (s : SdrSt) (mode0 : DSMode) (ok1 ok2 : Bool) :
    List Ev × SdrSt × Bool :=
  let mode := if s.forceDS then DSMode.onSwap else mode0
  match mode with
  | DSMode.off =>
    let pre := repTr true ++ [Ev.top TOp.tInit]
    if ok1 = false then (pre, s, false)
    else
      let s1 : SdrSt := { s with intFreq := 3570000, ds := DSMode.off }
      let c := setCenterFreqTr s1 s1.freq ok2
      (pre ++ repTr false ++ [Ev.dw 0 0x06 0x80 1] ++ c.1, c.2.1, c.2.2)
  | m =>
    let pre := repTr true ++ [Ev.top TOp.tExit]
    if ok1 = false then (pre, s, false)
    else
      let swapVal : ℕ := match m with | DSMode.onSwap => 0x90 | _ => 0x80
      let s1 : SdrSt := { s with ds := m }
      let c := setCenterFreqTr s1 s1.freq ok2
      (pre ++ repTr false ++
        [Ev.dw 1 0xb1 0x1a 1, Ev.dw 1 0x15 0x00 1, Ev.dw 0 0x08 0x4d 1,
         Ev.dw 0 0x06 swapVal 1] ++ c.1, c.2.1, c.2.2)

/-- `deinit_baseband`: `tuner.exit` bracketed by the repeater, then
demodulator power-off. -/
def deinitBasebandTr (ok : Bool) : List Ev × Bool :=
  if ok then
    (repTr true ++ [Ev.top TOp.tExit] ++ repTr false ++
      [Ev.wr BLOCK_SYS DEMOD_CTL 0x20], true)
  else (repTr true ++ [Ev.top TOp.tExit], false)

/-- The state `RtlSdr::new` constructs. -/
def initState : SdrSt :=
  { freq := 0, rate := 0, bw := 0, offsetFreq := 0, corr := 0,
    ds := DSMode.off, forceDS := false, intFreq := 0,
    xtal := DEF_RTL_XTAL_FREQ }

/-- Is the head of the list the repeater-disable write? (An empty rest
means the public operation aborted right after the tuner call.) -/
def nextIsRepOff : List Ev → Bool
  | [] => true
  | e :: _ =>
    match e with
    | Ev.dw p a v l => p == 1 && a == 1 && v == 0x10 && l == 1
    | _ => false

/-- The amended repeater discipline, scanned left to right.  The flag
records whether the most recent demod write to page 1 addr 0x01 carried
0x18 (repeater enabled).  Every tuner operation must occur with the flag
set and must be immediately followed by the repeater-disable write,
unless it is the last event (the operation aborted on its failure). -/
def disciplined : Bool → List Ev → Bool
  | _, [] => true
  | flag, e :: rest =>
    match e with
    | Ev.top _ => flag && nextIsRepOff rest && disciplined flag rest
    | Ev.dw p a v _ =>
      disciplined (if p == 1 && a == 1 then v == 0x18 else flag) rest
    | _ => disciplined flag rest

/-- The repeater-enable and repeater-disable events. -/
def repOnEv : Ev := Ev.dw 1 0x01 0x18 1

def repOffEv : Ev := Ev.dw 1 0x01 0x10 1

/-- The claim's literal discipline: every tuner operation immediately
preceded by the 0x18 write and immediately followed by the 0x10 write. -/
def strictGo : Option Ev → List Ev → Bool
  | _, [] => true
  | prev, e :: rest =>
    match e with
    | Ev.top _ =>
      (prev == some repOnEv) && (rest.head? == some repOffEv) &&
        strictGo (some e) rest
    | _ => strictGo (some e) rest

def strictDiscipline (t : List Ev) : Bool := strictGo none t

/-- C2 counterexample.  In the trace of `init()` (tuner found, tuner init
succeeding), the `tuner.init` call is *not* immediately preceded by the
repeater-enable write: the EEPROM read (and before it several demod
writes) stand between the 0x18 write and the tuner operation. -/
theorem c2_counterexample : strictDiscipline (initTr true) = false := by
  decide

/-- C2 amended.  In the device-operation trace of every public operation
(from any controller state, any parameters, any tuner-call outcomes, and
any initial repeater-flag value), every tuner operation happens while the
repeater is enabled — a demod write of 0x18 to page 1 addr 0x01 precedes
it with no other write to page 1 addr 0x01 in between (in `init` the
intervening events are demod writes to other registers and the EEPROM
read, so "immediately preceded" fails but this weaker bracketing holds) —
and is immediately followed by the repeater-disable write of 0x10 unless
the tuner call itself failed, which aborts the public operation with the
tuner error before the repeater-disable write. -/
theorem c2_repeater_discipline (s : SdrSt) (flag okI ok1 ok2 : Bool)
    (freq rate bw0 : ℕ) (mode : DSMode) :
    disciplined flag (initTr okI) = true ∧
    disciplined flag (setCenterFreqTr s freq ok1).1 = true ∧
    disciplined flag (setTunerGainTr ok1) = true ∧
    disciplined flag (setSampleRateTr s rate ok1 ok2).1 = true ∧
    disciplined flag (setTunerBandwidthTr s bw0 ok1 ok2).1 = true ∧
    disciplined flag (setDirectSamplingTr s mode ok1 ok2).1 = true ∧
    disciplined flag (deinitBasebandTr ok1).1 = true := by
  obtain ⟨f, r, b, of, c, ds, fd, itf, xt⟩ := s
  refine ⟨?_, ?_, ?_, ?_, ?_, ?_, ?_⟩
  · cases okI <;> cases flag <;> decide
  · cases ds <;> cases ok1 <;> rfl
  · cases ok1 <;> rfl
  · cases ds <;> cases ok1 <;> cases ok2 <;>
      (unfold setSampleRateTr; split) <;> rfl
  · cases ds <;> cases ok1 <;> cases ok2 <;> rfl
  · cases fd <;> cases mode <;> cases ds <;> cases ok1 <;> cases ok2 <;> rfl
  · cases ok1 <;> rfl

/-- C5 counterexample.  `set_sample_rate(250_000)` does *not* fail:
250_000 lies in the accepted band (225_000, 300_000], the call succeeds
and performs device register writes. -/
theorem c5_counterexample :
    (setSampleRateTr initState 250000 true true).2.2 = SRes.ok ∧
    (setSampleRateTr initState 250000 true true).1 ≠ [] := by
  decide

/-- C5 amended.  A rate at or below 225_000 — such as 200_000 — fails
with the `Invalid` error and performs no device register writes
(`set_sample_rate(250_000)` itself succeeds, since 250_000 is in the
accepted band (225_000, 300_000]). -/
theorem c5_invalid_rate_no_writes (s : SdrSt) (ok1 ok2 : Bool) :
    setSampleRateTr s 200000 ok1 ok2 = ([], s, SRes.invalid) := rfl

/-- C6 counterexample.  With `xtal = 28_800_000`,
`set_sample_rate(2_048_000)` writes `0x03 0x84` (the two big-endian bytes
of `rsamp_ratio >> 16 = 0x0384`) to demod page-1 register 0x9f — not
`0x09 0xBA` as the claim states. -/
theorem c6_counterexample :
    Ev.dw 1 0x9f 0x0384 2 ∈ (setSampleRateTr initState 2048000 true true).1 ∧
    ¬ Ev.dw 1 0x9f 0x09ba 2 ∈ (setSampleRateTr initState 2048000 true true).1 := by
  decide

/-- C6 amended.  With `xtal = 28_800_000`, `set_sample_rate(2_048_000)`
succeeds with an achieved rate of exactly 2_048_000 Hz and writes the two
bytes `0x03 0x84` (`rsamp_ratio >> 16`, i.e. `rsamp_ratio` =
`0x03840000`) to demod page-1 register 0x9f, immediately followed by the
two bytes `0x00 0x00` (`rsamp_ratio & 0xffff`) to register 0xa1. -/
theorem c6_rate_2048000 :
    (setSampleRateTr initState 2048000 true true).2.2 = SRes.ok ∧
    (setSampleRateTr initState 2048000 true true).2.1.rate = 2048000 ∧
    rsampRatio DEF_RTL_XTAL_FREQ 2048000 = 0x03840000 ∧
    (setSampleRateTr initState 2048000 true true).1.getD 9 (Ev.rd 0 0) =
      Ev.dw 1 0x9f 0x0384 2 ∧
    (setSampleRateTr initState 2048000 true true).1.getD 10 (Ev.rd 0 0) =
      Ev.dw 1 0xa1 0x0000 2 := by
  decide

end RtlSdrRs
